import Mathlib

/-!
Shallow embedding of the commit-message formatting core of the `hooks`
repository (`src/hooks/format_commit_msg.py`, with the near-duplicate
`src/pre_commit_hooks/format_commit_msg.py` variant of the type-extraction
step embedded separately for comparison).

Python strings are modelled as Lean `String` (a list of characters, matching
Python's code-point indexing); Python exceptions are modelled with
`Except PyError`; the two exception kinds the core can raise (`ValueError`
with a message, and `IndexError` from an out-of-range list access) are the
`PyError` constructors.  The Python string methods used by the source
(`split("/")`, `lower()`, `upper()`, `strip()`, slicing) are given as
executable Lean functions over the character list; the text involved is
ASCII, for which these models coincide with Python's behaviour.  File I/O
(`_read_commit_message` / `_write_commit_message`) and the git branch-name
lookup are external collaborators per the spec and are not modelled: the
pipeline takes the branch name and raw message text as inputs and returns
the final text.
-/

/-- Errors the Python core can raise: `ValueError(msg)` carrying its rendered
message, and `IndexError` (an out-of-range list subscript, which the `main`
entry point does not catch). -/
inductive PyError where
  | valueError (msg : String) : PyError
  | indexError : PyError
deriving DecidableEq, Repr

set_option maxRecDepth 8000

instance {ε α : Type} [DecidableEq ε] [DecidableEq α] : DecidableEq (Except ε α) := fun x y =>
  match x, y with
  | .ok a, .ok b =>
    if h : a = b then .isTrue (by rw [h]) else .isFalse (by intro hh; cases hh; exact h rfl)
  | .error a, .error b =>
    if h : a = b then .isTrue (by rw [h]) else .isFalse (by intro hh; cases hh; exact h rfl)
  | .ok _, .error _ => .isFalse (by intro hh; cases hh)
  | .error _, .ok _ => .isFalse (by intro hh; cases hh)

/-- `DEFAULT_COMMIT_TYPES` from `src/hooks/format_commit_msg.py` (identical to
`Commit.COMMIT_TYPES` in the `pre_commit_hooks` variant). -/
def DEFAULT_COMMIT_TYPES : List String :=
  ["fix", "feat", "build", "chore", "ci", "docs", "style", "refactor", "perf", "test"]

/-- `DEFAULT_SKIP_PREFIXES` from `src/hooks/format_commit_msg.py` (identical to
`Commit.SKIP_PREFIXES` in the `pre_commit_hooks` variant). -/
def DEFAULT_SKIP_PREFIXES : List String := ["skip", "no-verify", "s"]

/-- Python `s.lower()` (ASCII: maps `A`–`Z` to `a`–`z`). -/
def pyLower (s : String) : String := ⟨s.data.map Char.toLower⟩

/-- Python `s.upper()` (ASCII: maps `a`–`z` to `A`–`Z`). -/
def pyUpper (s : String) : String := ⟨s.data.map Char.toUpper⟩

/-- Python `s.split(sep)` for a one-character separator: split at every
occurrence, keeping empty parts (`"".split("/") == [""]`,
`"a/".split("/") == ["a", ""]`). -/
def pySplitChars (sep : Char) : List Char → List (List Char)
  | [] => [[]]
  | c :: rest =>
    if c = sep then [] :: pySplitChars sep rest
    else
      match pySplitChars sep rest with
      | [] => [[c]]
      | h :: t => (c :: h) :: t

/-- Python `s.split(sep)` for a one-character separator, on `String`. -/
def pySplit (s : String) (sep : Char) : List String :=
  (pySplitChars sep s.data).map fun l => ⟨l⟩

/-- A character stripped by Python's `str.strip()` (the ASCII whitespace
characters; the claims under study only involve ASCII text). -/
def isPySpace (c : Char) : Bool :=
  c = ' ' || c = '\t' || c = '\n' || c = '\r' || c = '\x0b' || c = '\x0c'

/-- Python `s.strip()`: remove leading and trailing whitespace. -/
def pyStrip (s : String) : String :=
  ⟨((s.data.dropWhile isPySpace).reverse.dropWhile isPySpace).reverse⟩

/-- `re.search(r"^[A-Za-z]+-[0-9]+$", s)` succeeds on exactly this shape
(one-or-more ASCII letters, a hyphen, one-or-more ASCII digits, spanning the
whole input).  Python's `$` also matches just before one trailing newline;
`issueMatch` handles that case. -/
def isIssueCore (cs : List Char) : Bool :=
  let letters := cs.takeWhile Char.isAlpha
  let rest := cs.dropWhile Char.isAlpha
  (!letters.isEmpty) &&
    match rest with
    | '-' :: ds => (!ds.isEmpty) && ds.all Char.isDigit
    | _ => false

/-- The match (`match[0]`) of `re.search(r"^[A-Za-z]+-[0-9]+$", s)`, if any:
either all of `s` has the letters-hyphen-digits shape, or all of `s` except a
single trailing newline does (Python's `$` matches before a final newline). -/
def issueMatch (s : String) : Option String :=
  if isIssueCore s.data then some s
  else if s.data.getLast? = some '\n' && isIssueCore s.data.dropLast then
    some ⟨s.data.dropLast⟩
  else none

/-- The match (`match[0]`) of `re.search(r"^[A-Za-z]+(?=:)", s)` in the
`hooks` variant: the maximal run of ASCII letters at the start of `s`,
provided it is nonempty and the character immediately after it is `:`.
(The run is maximal because `:` is not a letter, so no shorter backtracked
run can satisfy the lookahead.) -/
def msgTypeMatch (s : String) : Option String :=
  let letters := s.data.takeWhile Char.isAlpha
  if letters.isEmpty then none
  else if (s.data.dropWhile Char.isAlpha).head? = some ':' then some ⟨letters⟩
  else none

/-- The match of `re.search(r"^[A-Za-z]+(?=: )", s)` in the
`pre_commit_hooks` variant: as `msgTypeMatch`, but the letters run must be
followed by a colon and then a space. -/
def msgTypeMatchPCH (s : String) : Option String :=
  let letters := s.data.takeWhile Char.isAlpha
  if letters.isEmpty then none
  else
    match s.data.dropWhile Char.isAlpha with
    | ':' :: ' ' :: _ => some ⟨letters⟩
    | _ => none

/-- `Commit._set_branch_info` (hooks variant): derive
`(default_commit_type, issue_no)` from the branch name.  The Python code
first falls back to the git collaborator when `branch_name` is falsy (the
empty string); that external lookup is out of scope, so the theorems below
assume a nonempty branch name where it matters.  `branch_name_parts[1]` is an
unguarded list subscript: on a single-segment branch it raises `IndexError`. -/
def setBranchInfo (branch_name : String) : Except PyError (Option String × Option String) :=
  if pyLower ((pySplit branch_name '/').headD "") ∉ DEFAULT_COMMIT_TYPES then
    Except.ok (none, none)
  else
    match (pySplit branch_name '/').get? 1 with
    | none => Except.error PyError.indexError
    | some second =>
      match issueMatch second with
      | none =>
        Except.error (PyError.valueError "Branch name contains a type but no jira issue no.")
      | some m => Except.ok (some (pyLower ((pySplit branch_name '/').headD "")), some m)

/-- First fixed piece of the `UnresolvedCommitType` error message
(hooks variant). -/
def unresolvedPre : String :=
  "Commit type could not be determined from the branch name '"

/-- Middle fixed piece of the `UnresolvedCommitType` error message. -/
def unresolvedMid : String := "' or the commit message '"

/-- Final fixed piece of the `UnresolvedCommitType` error message.  The
Python source renders the set `\x7bs + ':' for s in self._skip_prefixes\x7d`;
set display order is unspecified in Python, so we fix the source list
order `skip, no-verify, s` (every order contains the same three tokens). -/
def unresolvedPost : String :=
  "'. Start the commit message with one of \x7b'skip:', 'no-verify:', 's:'\x7d to skip this check."

/-- The full `UnresolvedCommitType` error message raised by
`Commit._extract_type_from_commit_message` (hooks variant): it interpolates
the branch name and the `.strip()`ed commit message. -/
def unresolvedErrMsg (branch_name commit_message : String) : String :=
  unresolvedPre ++ branch_name ++ unresolvedMid ++ pyStrip commit_message ++ unresolvedPost

/-- `Commit._extract_type_from_commit_message` (hooks variant): returns the
resolved `commit_type` and the (possibly stripped) `commit_message`. -/
def extractType (branch_name : String) (default_commit_type : Option String)
    (commit_message : String) : Except PyError (String × String) :=
  match msgTypeMatch commit_message with
  | none =>
    match default_commit_type with
    | none => Except.error (PyError.valueError (unresolvedErrMsg branch_name commit_message))
    | some d => Except.ok (d, commit_message)
  | some tok =>
    if pyLower tok ∈ DEFAULT_SKIP_PREFIXES ++ DEFAULT_COMMIT_TYPES then
      Except.ok (tok, pyStrip (commit_message.drop (tok.length + 1)))
    else
      Except.error (PyError.valueError
        ("Commit type '" ++ pyLower tok ++ "' is not allowed according to conventional commit."))

/-- The Python test `self.commit_type in self._skip_prefixes` of
`Commit._format_commit_message`: the original-cased `commit_type` is compared
against the lowercase skip tokens, and Python `None in [...]` is `False`. -/
def isSkipResolved (commit_type : Option String) : Bool :=
  match commit_type with
  | some t => decide (t ∈ DEFAULT_SKIP_PREFIXES)
  | none => false

/-- `Commit._format_commit_message` (hooks variant). -/
def formatCommitMessage (commit_type issue_no : Option String)
    (commit_message : String) : Except PyError String :=
  if isSkipResolved commit_type then
    Except.ok commit_message
  else
    match commit_type, issue_no with
    | some t, some i =>
      Except.ok (pyUpper i ++ "(" ++ pyLower t ++ "): " ++ commit_message)
    | _, _ =>
      Except.error (PyError.valueError "Either commit_type of issue_no could not be determined.")

/-- `Commit(...).format_message()` (hooks variant) without the file I/O:
`_set_branch_info` (run by `__init__`), then `_extract_type_from_commit_message`,
then `_format_commit_message`, returning the text that would be written back. -/
def formatMessage (branch_name raw_message : String) : Except PyError String :=
  match setBranchInfo branch_name with
  | Except.error e => Except.error e
  | Except.ok (dct, issue) =>
    match extractType branch_name dct raw_message with
    | Except.error e => Except.error e
    | Except.ok (ct, msg) => formatCommitMessage (some ct) issue msg

/-- `Commit._extract_type_from_commit_message` from the `pre_commit_hooks`
variant: colon-space lookahead, `len + 2` slice, and no `.strip()` of the
remainder; its `UnresolvedCommitType` message has no interpolations. -/
def extractTypePCH (default_commit_type : Option String)
    (commit_message : String) : Except PyError (String × String) :=
  match msgTypeMatchPCH commit_message with
  | none =>
    match default_commit_type with
    | none =>
      Except.error (PyError.valueError
        "Commit type could not be determined from the branch name or the commit message")
    | some d => Except.ok (d, commit_message)
  | some tok =>
    if pyLower tok ∈ DEFAULT_SKIP_PREFIXES ++ DEFAULT_COMMIT_TYPES then
      Except.ok (tok, commit_message.drop (tok.length + 2))
    else
      Except.error (PyError.valueError
        ("commit type '" ++ pyLower tok ++ "' is not allowed according to conventional commit"))

/-- `needle` occurs as a contiguous substring of `hay`. -/
def containsStr (hay needle : String) : Prop :=
  ∃ a b : List Char, hay.data = a ++ needle.data ++ b

example : formatMessage "feat/ABC-123/my_feat" "my message here" =
    Except.ok "ABC-123(feat): my message here" := by rfl
example : formatMessage "feat/ABC-456/my_feat" "fix: my message here" =
    Except.ok "ABC-456(fix): my message here" := by rfl
example : formatMessage "develop" "skip: my message" = Except.ok "my message" := by rfl
example : setBranchInfo "fix/my_fix" =
    Except.error (PyError.valueError "Branch name contains a type but no jira issue no.") := by rfl
example : formatMessage "develop" "invalidtype: my message" =
    Except.error (PyError.valueError
      "Commit type 'invalidtype' is not allowed according to conventional commit.") := by rfl
example : formatMessage "fix/ABC-789/my_fix" "feat: my message here" =
    Except.ok "ABC-789(feat): my message here" := by rfl

theorem data_append (a b : String) : (a ++ b).data = a.data ++ b.data := rfl

theorem takeWhile_all_append (p : Char → Bool) (l₁ l₂ : List Char)
    (h₁ : ∀ a ∈ l₁, p a = true) (h₂ : ∀ b, l₂.head? = some b → p b = false) :
    (l₁ ++ l₂).takeWhile p = l₁ ∧ (l₁ ++ l₂).dropWhile p = l₂ := by
  induction l₁ with
  | nil =>
    cases l₂ with
    | nil => simp
    | cons b t => simp [List.takeWhile, List.dropWhile, h₂ b rfl]
  | cons a t ih =>
    have ha := h₁ a (by simp)
    have ih' := ih fun x hx => h₁ x (by simp [hx])
    simp [List.takeWhile_cons, List.dropWhile_cons, ha, ih'.1, ih'.2]

theorem msgTypeMatch_of_decomp (t rest : String) (hne : t.data ≠ [])
    (halpha : ∀ c ∈ t.data, c.isAlpha = true) :
    msgTypeMatch (t ++ ":" ++ rest) = some t := by
  have hdata : (t ++ ":" ++ rest).data = t.data ++ (':' :: rest.data) := by
    simp [data_append]
  have htw := takeWhile_all_append Char.isAlpha t.data (':' :: rest.data) halpha
    (by intro b hb; cases hb; rfl)
  unfold msgTypeMatch
  rw [hdata, htw.1, htw.2]
  simp [hne]

theorem drop_decomp (t rest : String) : (t ++ ":" ++ rest).drop (t.length + 1) = rest := by
  apply String.ext
  rw [String.data_drop]
  have h1 : (t ++ ":" ++ rest).data = (t.data ++ [':']) ++ rest.data := by
    simp [data_append]
  have h2 : t.length + 1 = (t.data ++ [':']).length := by rw [List.length_append]; rfl
  rw [h1, h2, List.drop_left]

theorem pyLower_of_mem_types (T : String) (h : T ∈ DEFAULT_COMMIT_TYPES) : pyLower T = T := by
  fin_cases h <;> rfl

theorem not_skip_of_lower_mem_types (t : String) (h : pyLower t ∈ DEFAULT_COMMIT_TYPES) :
    t ∉ DEFAULT_SKIP_PREFIXES := by
  intro hin
  fin_cases hin <;> revert h <;> decide

theorem setBranchInfo_type_mem (branch T : String) (i : Option String)
    (h : setBranchInfo branch = Except.ok (some T, i)) : T ∈ DEFAULT_COMMIT_TYPES := by
  unfold setBranchInfo at h
  split at h
  · simp at h
  next hc =>
    split at h
    · simp at h
    next second hsec =>
      split at h
      · simp at h
      next m hm =>
        simp only [Except.ok.injEq, Prod.mk.injEq, Option.some.injEq] at h
        obtain ⟨hT, _⟩ := h
        subst hT
        simpa using hc

theorem formatMessage_eq (b r : String) (dct issue : Option String)
    (hb : setBranchInfo b = Except.ok (dct, issue)) (ct msg : String)
    (he : extractType b dct r = Except.ok (ct, msg)) :
    formatMessage b r = formatCommitMessage (some ct) issue msg := by
  simp only [formatMessage, hb, he]

/-- C2: the claim says a single-segment branch whose name is a recognized
commit type (e.g. `feat`) fails with the typed `InvalidBranchFormat`
`ValueError`; the code instead performs the unguarded subscript
`branch_name_parts[1]` and raises `IndexError`, which `main` does not catch —
contradicting `_set_branch_info`'s own docstring ("Raises ValueError If
default commit type is found but Jira issue no is not found").  This theorem
evaluates the code at the failing input. -/
theorem c2_single_segment_type_branch_raises_IndexError :
    setBranchInfo "feat" = Except.error PyError.indexError ∧
    formatMessage "feat" "my message" = Except.error PyError.indexError :=
  ⟨rfl, rfl⟩

/-- C3: the claim (and the code's own advice text) says prefixing a message
with `no-verify:` bypasses the check; but the token regex `^[A-Za-z]+(?=:)`
only matches letters, so the hyphen in `no-verify` prevents any match and the
code raises the very `UnresolvedCommitType` error whose message recommends
`no-verify:`.  This theorem evaluates the code at the failing input. -/
theorem c3_no_verify_is_never_recognized :
    formatMessage "develop" "no-verify: my message" =
      Except.error (PyError.valueError (unresolvedErrMsg "develop" "no-verify: my message")) ∧
    formatMessage "develop" "no-verify: my message" ≠ Except.ok "my message" :=
  ⟨rfl, by decide⟩

/-- C9: the two source implementations of the type-extraction step are not
equivalent.  On `"feat:my message"` (colon not followed by a space) the
`hooks` variant recognizes and strips the type while the `pre_commit_hooks`
variant fails to resolve any type; on `"feat: my message \n"` the `hooks`
variant strips surrounding whitespace from the remainder while the
`pre_commit_hooks` variant keeps it. -/
theorem c9_extraction_variants_differ :
    extractType "develop" none "feat:my message" = Except.ok ("feat", "my message") ∧
    extractTypePCH none "feat:my message" =
      Except.error (PyError.valueError
        "Commit type could not be determined from the branch name or the commit message") ∧
    extractType "develop" none "feat:my message" ≠ extractTypePCH none "feat:my message" ∧
    extractType "develop" none "feat: my message \n" = Except.ok ("feat", "my message") ∧
    extractTypePCH none "feat: my message \n" = Except.ok ("feat", "my message \n") ∧
    extractType "develop" none "feat: my message \n" ≠ extractTypePCH none "feat: my message \n" :=
  ⟨rfl, rfl, by decide, rfl, rfl, by decide⟩

/-- C1 (counterexample): skip handling is NOT case-insensitive end to end.
For the message `"SKIP: my message"` the extraction step resolves the
original-cased token `SKIP` (case-insensitively recognized), but
`_format_commit_message`'s test `self.commit_type in self._skip_prefixes`
compares `"SKIP"` case-sensitively against the lowercase skip tokens, so the
message is NOT passed through: on a defaults-free branch the operation fails
instead. -/
theorem c1_counterexample_upper_SKIP_not_skipped :
    formatMessage "develop" "SKIP: my message" =
      Except.error (PyError.valueError "Either commit_type of issue_no could not be determined.") ∧
    formatMessage "develop" "SKIP: my message" ≠ Except.ok "my message" :=
  ⟨rfl, by decide⟩

/-- C1 (amended): skip pass-through holds exactly for an original-cased
leading token among the (lowercase) skip tokens: whenever the message's
leading token `t` is literally one of `skip`, `no-verify`, `s` (the last two
being unreachable via the letters-only regex, in fact), the final message is
the stripped message verbatim, with no issue id required.  The nonempty
branch-name hypothesis keeps the external git fallback out of scope. -/
theorem c1_amended_exact_case_skip_passthrough (branch raw t : String)
    (dct issue : Option String) (hne : branch ≠ "")
    (hb : setBranchInfo branch = Except.ok (dct, issue))
    (hm : msgTypeMatch raw = some t)
    (ht : t ∈ DEFAULT_SKIP_PREFIXES) :
    formatMessage branch raw = Except.ok (pyStrip (raw.drop (t.length + 1))) := by
  have ht' : pyLower t ∈ DEFAULT_SKIP_PREFIXES ++ DEFAULT_COMMIT_TYPES := by
    fin_cases ht <;> decide
  have hsk : isSkipResolved (some t) = true := by
    simp [isSkipResolved, ht]
  have he : extractType branch dct raw = Except.ok (t, pyStrip (raw.drop (t.length + 1))) := by
    simp only [extractType, hm]
    rw [if_pos ht']
  rw [formatMessage_eq branch raw dct issue hb _ _ he]
  simp [formatCommitMessage, hsk]

/-- Witness for `c1_amended_exact_case_skip_passthrough` at
branch `develop`, message `"skip: my message"`. -/
theorem c1_amended_witness :
    ("develop" : String) ≠ "" ∧
    setBranchInfo "develop" = Except.ok (none, none) ∧
    msgTypeMatch "skip: my message" = some "skip" ∧
    "skip" ∈ DEFAULT_SKIP_PREFIXES ∧
    formatMessage "develop" "skip: my message" = Except.ok "my message" :=
  ⟨by decide, rfl, rfl, by decide,
    c1_amended_exact_case_skip_passthrough "develop" "skip: my message" "skip" none none
      (by decide) rfl rfl (by decide)⟩

/-- C4 (counterexample): when the leading token is recognized, the code does
not only strip the token, colon and following whitespace from the front: the
`.strip()` call also removes trailing whitespace at the END of the message.
On `"feat: hi \n"` the claim predicts the stripped message `"hi \n"`, but the
code produces `"hi"`. -/
theorem c4_counterexample_trailing_whitespace_stripped :
    extractType "develop" none "feat: hi \n" = Except.ok ("feat", "hi") ∧
    extractType "develop" none "feat: hi \n" ≠ Except.ok ("feat", "hi \n") :=
  ⟨rfl, by decide⟩

/-- C4 (amended): when the message decomposes as a nonempty all-letters token
`t` in the recognized vocabulary, a colon, and a remainder, the extraction
returns `t` (original-cased) and the remainder with whitespace trimmed from
BOTH its start and its end (Python `.strip()`), not only from the front. -/
theorem c4_amended_strip_both_ends (b : String) (d : Option String) (t rest : String)
    (hne : t.data ≠ []) (halpha : ∀ c ∈ t.data, c.isAlpha = true)
    (hv : pyLower t ∈ DEFAULT_SKIP_PREFIXES ++ DEFAULT_COMMIT_TYPES) :
    extractType b d (t ++ ":" ++ rest) = Except.ok (t, pyStrip rest) := by
  have hm := msgTypeMatch_of_decomp t rest hne halpha
  simp only [extractType, hm]
  rw [if_pos hv, drop_decomp]

/-- Witness for `c4_amended_strip_both_ends` at token `feat` and
remainder `" hi \n"`. -/
theorem c4_amended_witness :
    ("feat" : String).data ≠ [] ∧
    (∀ c ∈ ("feat" : String).data, c.isAlpha = true) ∧
    pyLower "feat" ∈ DEFAULT_SKIP_PREFIXES ++ DEFAULT_COMMIT_TYPES ∧
    extractType "develop" none ("feat" ++ ":" ++ " hi \n") = Except.ok ("feat", "hi") :=
  ⟨by decide, by decide, by decide,
    c4_amended_strip_both_ends "develop" none "feat" " hi \n" (by decide) (by decide) (by decide)⟩

/-- C5: for a resolved non-skip `commit_type` and resolved `issue_no`, the
formatted message is exactly `upper(issue_no) ++ "(" ++ lower(commit_type) ++
"): " ++ stripped message`, whatever the casing in which the two were
captured. -/
theorem c5_composite_format (t i m : String) (h : t ∉ DEFAULT_SKIP_PREFIXES) :
    formatCommitMessage (some t) (some i) m =
      Except.ok (pyUpper i ++ "(" ++ pyLower t ++ "): " ++ m) := by
  simp [formatCommitMessage, isSkipResolved, h]

/-- Witness for `c5_composite_format` at a mixed-case type and a lowercase
issue id. -/
theorem c5_composite_format_witness :
    ("Feat" : String) ∉ DEFAULT_SKIP_PREFIXES ∧
    formatCommitMessage (some "Feat") (some "abc-123") "hi" = Except.ok "ABC-123(feat): hi" :=
  ⟨by decide, c5_composite_format "Feat" "abc-123" "hi" (by decide)⟩

/-- C6: when the message has no leading letters-colon token and the branch
supplies no default type, the operation fails with the `UnresolvedCommitType`
`ValueError`, whose message contains the branch name, the trimmed commit
message, and the advice naming each skip token followed by `:`.  The nonempty
branch-name hypothesis keeps the external git fallback out of scope. -/
theorem c6_unresolved_error_contents (branch msg : String) (hne : branch ≠ "")
    (h1 : msgTypeMatch msg = none)
    (h2 : setBranchInfo branch = Except.ok (none, none)) :
    formatMessage branch msg = Except.error (PyError.valueError (unresolvedErrMsg branch msg)) ∧
    containsStr (unresolvedErrMsg branch msg) branch ∧
    containsStr (unresolvedErrMsg branch msg) (pyStrip msg) ∧
    containsStr (unresolvedErrMsg branch msg) "skip:" ∧
    containsStr (unresolvedErrMsg branch msg) "no-verify:" ∧
    containsStr (unresolvedErrMsg branch msg) "s:" := by
  refine ⟨?_, ?_, ?_, ?_, ?_, ?_⟩
  · have he : extractType branch none msg =
        Except.error (PyError.valueError (unresolvedErrMsg branch msg)) := by
      simp only [extractType, h1]
    simp only [formatMessage, h2, he]
  · exact ⟨unresolvedPre.data, (unresolvedMid ++ pyStrip msg ++ unresolvedPost).data, by
      simp [unresolvedErrMsg, data_append, List.append_assoc]⟩
  · exact ⟨(unresolvedPre ++ branch ++ unresolvedMid).data, unresolvedPost.data, by
      simp [unresolvedErrMsg, data_append, List.append_assoc]⟩
  · refine ⟨(unresolvedPre ++ branch ++ unresolvedMid ++ pyStrip msg).data ++
        ("'. Start the commit message with one of \x7b'").data,
      ("', 'no-verify:', 's:'\x7d to skip this check.").data, ?_⟩
    have hsplit : unresolvedPost =
        "'. Start the commit message with one of \x7b'" ++ "skip:" ++
          "', 'no-verify:', 's:'\x7d to skip this check." := rfl
    simp only [unresolvedErrMsg, hsplit]
    simp [data_append, List.append_assoc]
  · refine ⟨(unresolvedPre ++ branch ++ unresolvedMid ++ pyStrip msg).data ++
        ("'. Start the commit message with one of \x7b'skip:', '").data,
      ("', 's:'\x7d to skip this check.").data, ?_⟩
    have hsplit : unresolvedPost =
        "'. Start the commit message with one of \x7b'skip:', '" ++ "no-verify:" ++
          "', 's:'\x7d to skip this check." := rfl
    simp only [unresolvedErrMsg, hsplit]
    simp [data_append, List.append_assoc]
  · refine ⟨(unresolvedPre ++ branch ++ unresolvedMid ++ pyStrip msg).data ++
        ("'. Start the commit message with one of \x7b'skip:', 'no-verify:', '").data,
      ("'\x7d to skip this check.").data, ?_⟩
    have hsplit : unresolvedPost =
        "'. Start the commit message with one of \x7b'skip:', 'no-verify:', '" ++ "s:" ++
          "'\x7d to skip this check." := rfl
    simp only [unresolvedErrMsg, hsplit]
    simp [data_append, List.append_assoc]

/-- Witness for `c6_unresolved_error_contents` at branch `develop`,
message `"my message"`. -/
theorem c6_witness :
    ("develop" : String) ≠ "" ∧
    msgTypeMatch "my message" = none ∧
    setBranchInfo "develop" = Except.ok (none, none) ∧
    (formatMessage "develop" "my message" =
        Except.error (PyError.valueError (unresolvedErrMsg "develop" "my message")) ∧
      containsStr (unresolvedErrMsg "develop" "my message") "develop" ∧
      containsStr (unresolvedErrMsg "develop" "my message") (pyStrip "my message") ∧
      containsStr (unresolvedErrMsg "develop" "my message") "skip:" ∧
      containsStr (unresolvedErrMsg "develop" "my message") "no-verify:" ∧
      containsStr (unresolvedErrMsg "develop" "my message") "s:") :=
  ⟨by decide, rfl, rfl, c6_unresolved_error_contents "develop" "my message" (by decide) rfl rfl⟩

/-- C7: a branch of the form `T/X/...` whose first segment is a recognized
commit type (case-insensitively) and whose second segment the issue-id regex
does not match fails with the `InvalidBranchFormat` `ValueError`; on the
`Except` model no `(default type, issue)` pair is produced at all (never a
partial state), and the whole formatting operation fails with the same error
for every message. -/
theorem c7_invalid_branch_format (branch x : String)
    (h1 : pyLower ((pySplit branch '/').headD "") ∈ DEFAULT_COMMIT_TYPES)
    (h2 : (pySplit branch '/').get? 1 = some x)
    (h3 : issueMatch x = none) :
    setBranchInfo branch =
      Except.error (PyError.valueError "Branch name contains a type but no jira issue no.") ∧
    ∀ msg, formatMessage branch msg =
      Except.error (PyError.valueError "Branch name contains a type but no jira issue no.") := by
  have hset : setBranchInfo branch =
      Except.error (PyError.valueError "Branch name contains a type but no jira issue no.") := by
    simp only [setBranchInfo]
    rw [if_neg (not_not_intro h1)]
    simp only [h2, h3]
  refine ⟨hset, fun msg => ?_⟩
  simp only [formatMessage, hset]

/-- Witness for `c7_invalid_branch_format` at branch `fix/my_fix`
(spec Scenario C). -/
theorem c7_witness :
    pyLower ((pySplit "fix/my_fix" '/').headD "") ∈ DEFAULT_COMMIT_TYPES ∧
    (pySplit "fix/my_fix" '/').get? 1 = some "my_fix" ∧
    issueMatch "my_fix" = none ∧
    setBranchInfo "fix/my_fix" =
      Except.error (PyError.valueError "Branch name contains a type but no jira issue no.") ∧
    formatMessage "fix/my_fix" "chore: my message here" =
      Except.error (PyError.valueError "Branch name contains a type but no jira issue no.") :=
  ⟨by decide, rfl, rfl,
    (c7_invalid_branch_format "fix/my_fix" "my_fix" (by decide) rfl rfl).1,
    (c7_invalid_branch_format "fix/my_fix" "my_fix" (by decide) rfl rfl).2 "chore: my message here"⟩

/-- C8: on a branch with no defaults, a message whose leading token is a
recognized (necessarily non-skip, since the vocabularies are disjoint after
lowercasing) commit type resolves the type without an issue id, so the
formatting step fails with the `IncompleteResolution` `ValueError`; no final
message is produced.  The nonempty branch-name hypothesis keeps the external
git fallback out of scope. -/
theorem c8_type_without_issue_fails (branch msg t : String) (hne : branch ≠ "")
    (hb : setBranchInfo branch = Except.ok (none, none))
    (hm : msgTypeMatch msg = some t)
    (ht : pyLower t ∈ DEFAULT_COMMIT_TYPES) :
    formatMessage branch msg =
      Except.error (PyError.valueError "Either commit_type of issue_no could not be determined.") := by
  have hmem : pyLower t ∈ DEFAULT_SKIP_PREFIXES ++ DEFAULT_COMMIT_TYPES :=
    List.mem_append_right _ ht
  have he : extractType branch none msg =
      Except.ok (t, pyStrip (msg.drop (t.length + 1))) := by
    simp only [extractType, hm]
    rw [if_pos hmem]
  have hsk : isSkipResolved (some t) = false := by
    simp [isSkipResolved, not_skip_of_lower_mem_types t ht]
  rw [formatMessage_eq branch msg none none hb _ _ he]
  simp [formatCommitMessage, hsk]

/-- Witness for `c8_type_without_issue_fails` at branch `develop`,
message `"feat: my message"` (spec Scenario E). -/
theorem c8_witness :
    ("develop" : String) ≠ "" ∧
    setBranchInfo "develop" = Except.ok (none, none) ∧
    msgTypeMatch "feat: my message" = some "feat" ∧
    pyLower "feat" ∈ DEFAULT_COMMIT_TYPES ∧
    formatMessage "develop" "feat: my message" =
      Except.error (PyError.valueError "Either commit_type of issue_no could not be determined.") :=
  ⟨by decide, rfl, rfl, by decide,
    c8_type_without_issue_fails "develop" "feat: my message" "feat" (by decide) rfl rfl (by decide)⟩

/-- C10: whenever the branch supplies a default type `T` and issue id `I` and
the raw message has no leading letters-colon token (the empty message
included), the operation succeeds and appends the raw message completely
unmodified after `upper(I) ++ "(" ++ T ++ "): "` (the branch-derived `T` is
already lowercase, so lowercasing on output is the identity on it). -/
theorem c10_tokenless_message_uses_branch_defaults (branch raw T I : String)
    (hb : setBranchInfo branch = Except.ok (some T, some I))
    (hm : msgTypeMatch raw = none) :
    formatMessage branch raw = Except.ok (pyUpper I ++ "(" ++ T ++ "): " ++ raw) := by
  have hT := setBranchInfo_type_mem branch T (some I) hb
  have he : extractType branch (some T) raw = Except.ok (T, raw) := by
    simp only [extractType, hm]
  have hsk : isSkipResolved (some T) = false := by
    have hn : T ∉ DEFAULT_SKIP_PREFIXES := by
      intro hin
      fin_cases hin <;> revert hT <;> decide
    simp [isSkipResolved, hn]
  rw [formatMessage_eq branch raw (some T) (some I) hb _ _ he]
  simp [formatCommitMessage, hsk, pyLower_of_mem_types T hT]

/-- Witness for `c10_tokenless_message_uses_branch_defaults` at branch
`feat/ABC-123/my_feat`, message `"my message here"` (spec Scenario A). -/
theorem c10_witness :
    setBranchInfo "feat/ABC-123/my_feat" = Except.ok (some "feat", some "ABC-123") ∧
    msgTypeMatch "my message here" = none ∧
    formatMessage "feat/ABC-123/my_feat" "my message here" =
      Except.ok "ABC-123(feat): my message here" :=
  ⟨rfl, rfl,
    c10_tokenless_message_uses_branch_defaults "feat/ABC-123/my_feat" "my message here"
      "feat" "ABC-123" rfl rfl⟩
